import Mathlib

/-!
Verification of the ielts-speaking-partner repository against its
natural-language specification.  The TypeScript sources are shallowly
embedded: pure functions become Lean functions, the in-memory cache and
the two MongoDB collections become explicit state that every handler
threads through, machine numbers become `Int`/`Nat`/`ℚ`, and fallible
code returns `Except`/`Option`.  External collaborators (the SHA-256
digest, `JSON.parse`, the AI provider, the database driver) are modelled
by their documented interfaces and passed in as explicit parameters.
-/

namespace Ielts

/-! ## JavaScript string primitives used by the embedded code -/

/-- Embeds `String.prototype.toLowerCase`: lowercases every character. -/
def jsToLower (s : String) : String := String.mk (s.data.map Char.toLower)

/-- Embeds `String.prototype.trim`: strips whitespace from both ends. -/
def jsTrim (s : String) : String :=
  String.mk (((s.data.dropWhile Char.isWhitespace).reverse.dropWhile Char.isWhitespace).reverse)

/-- Helper for `jsIncludes`: the pattern is a prefix of the list. -/
def firstMatches : List Char → List Char → Bool
  | [], _ => true
  | _ :: _, [] => false
  | a :: pa, b :: bs => a == b && firstMatches pa bs

/-- Helper for `jsIncludes`: the pattern occurs contiguously in the list. -/
def occursIn (pat : List Char) : List Char → Bool
  | [] => firstMatches pat []
  | b :: bs => firstMatches pat (b :: bs) || occursIn pat bs

/-- Embeds `String.prototype.includes`: `jsIncludes s pat` holds when `pat`
occurs as a contiguous substring of `s`. -/
def jsIncludes (s pat : String) : Bool := occursIn pat.data s.data

/-- Embeds `String.prototype.startsWith`: `pat` is a prefix of `s`. -/
def jsStartsWith (s pat : String) : Bool := firstMatches pat.data s.data

/-! ## The request cache (`APICache`, src/unnamed/part_003 lines 6–39) -/

/-- Embeds the `CacheEntry` record `{ data, timestamp, expiresIn }`.
Times are milliseconds since the epoch, as delivered by `Date.now()`. -/
structure CacheEntry (α : Type) where
  data : α
  timestamp : Int
  expiresIn : Int
deriving DecidableEq

/-- The `Map<string, CacheEntry>` backing the cache, modelled as an
association list in which `set` keeps at most one entry per key. -/
def APICache (α : Type) : Type := List (String × CacheEntry α)

instance (α : Type) [DecidableEq α] : DecidableEq (APICache α) := by
  unfold APICache; infer_instance

/-- Embeds `APICache.set`: `Map.prototype.set` replaces any entry already
stored under the key.  `now` is the `Date.now()` read inside `set`; the
default `expiresIn` is the `DEFAULT_EXPIRY` of five minutes. -/
def APICache.set {α : Type} (c : APICache α) (key : String) (data : α) (now : Int)
    (expiresIn : Int := 5 * 60 * 1000) : APICache α :=
  (key, ⟨data, now, expiresIn⟩) :: c.filter (fun p => p.1 != key)

/-- Embeds `APICache.get`: a missing key misses; an entry with
`Date.now() - entry.timestamp > entry.expiresIn` is deleted and misses;
otherwise the stored data is returned.  The updated storage is returned
alongside the result because expiry mutates the map. -/
def APICache.get {α : Type} (c : APICache α) (key : String) (now : Int) :
    Option α × APICache α :=
  match c.find? (fun p => p.1 == key) with
  | none => (none, c)
  | some e =>
      if now - e.2.timestamp > e.2.expiresIn then
        (none, c.filter (fun p => p.1 != key))
      else
        (some e.2.data, c)

/-- Embeds `APICache.clear`: `Map.prototype.clear` empties the storage. -/
def APICache.clear {α : Type} : APICache α := []

theorem APICache.find?_filter_ne {α : Type} (c : APICache α) (key : String) :
    (c.filter (fun p => p.1 != key)).find? (fun p => p.1 == key) = none := by
  rw [List.find?_eq_none]
  intro x hx
  rcases List.mem_filter.mp hx with ⟨-, hne⟩
  simpa using bne_iff_ne.mp hne

/-- C1 counterexample: with `createdAt = 0` and `ttl = 5`, a `get` at
`now = 5` is outside the claimed hit window `now < createdAt + ttl`, yet
the code returns the stored value instead of evicting and missing. -/
theorem C1_counterexample :
    ¬ ((5 : Int) < 0 + 5) ∧
      (APICache.get (APICache.set ([] : APICache Nat) "k" 7 0 5) "k" 5).1 = some 7 := by
  constructor
  · decide
  · rfl

/-- C1 (amended): after `set(key, value, ttl)` at time `t`, a `get` at time
`now` returns the stored value iff `now ≤ t + ttl` (the entry expires only
strictly after the ttl has elapsed); an expired `get` evicts the entry, so
every subsequent `get` for that key misses as if the key was never set; and
`clear()` empties all entries so `get` misses for every key. -/
theorem C1_cache_spec {α : Type} (c : APICache α) (k : String) (v : α) (t ttl now : Int) :
    (now ≤ t + ttl →
      APICache.get (APICache.set c k v t ttl) k now = (some v, APICache.set c k v t ttl)) ∧
    (t + ttl < now →
      (APICache.get (APICache.set c k v t ttl) k now).1 = none ∧
      ∀ now2 : Int,
        (APICache.get (APICache.get (APICache.set c k v t ttl) k now).2 k now2).1 = none) ∧
    (∀ key : String, ∀ n : Int, (APICache.get (APICache.clear (α := α)) key n).1 = none) := by
  have hfind :
      (APICache.set c k v t ttl).find? (fun p => p.1 == k) = some (k, ⟨v, t, ttl⟩) := by
    unfold APICache.set
    rw [List.find?_cons_of_pos]
    simp
  refine ⟨?_, ?_, ?_⟩
  · intro hle
    unfold APICache.get
    rw [hfind]
    simp only
    rw [if_neg (by simpa using by omega)]
  · intro hlt
    unfold APICache.get
    rw [hfind]
    simp only
    rw [if_pos (by simpa using by omega)]
    refine ⟨rfl, ?_⟩
    intro now2
    simp only
    have hnone :
        ((APICache.set c k v t ttl).filter (fun p => p.1 != k)).find? (fun p => p.1 == k) =
          none := APICache.find?_filter_ne _ _
    rw [hnone]
  · intro key n
    rfl

/-- Witness for `C1_cache_spec` at `c = []`, `k = "k"`, `v = 7`, `t = 0`,
`ttl = 5`, `now = 5`. -/
theorem C1_cache_spec_witness :
    APICache.get (APICache.set ([] : APICache Nat) "k" 7 0 5) "k" 5 =
      (some 7, APICache.set ([] : APICache Nat) "k" 7 0 5) :=
  (C1_cache_spec ([] : APICache Nat) "k" 7 0 5 5).1 (by decide)

/-! ## The model-answer question hash
(src/src/app/api/model-answers/route.ts lines 46–47 and 115–118) -/

/-- Normalization both handlers apply before hashing:
`question.toLowerCase().trim()`. -/
def normalizeQuestion (q : String) : String := jsTrim (jsToLower q)

/-- The lowercase hexadecimal alphabet produced by Node `digest('hex')`. -/
def hexDigits : List Char := "0123456789abcdef".data

/-- Interface of the external `crypto.createHash('sha256').update(s).digest('hex')`
pipeline: a deterministic function whose output is always a string of 64
lowercase hexadecimal characters. -/
structure DigestFunction where
  f : String → String
  len64 : ∀ s, (f s).length = 64
  hexOut : ∀ s, ∀ c ∈ (f s).data, c ∈ hexDigits

/-- `questionHash` exactly as computed by both the GET and POST handlers of
/api/model-answers: the digest of the lowercased, trimmed question. -/
def questionHash (df : DigestFunction) (q : String) : String :=
  df.f (normalizeQuestion q)

/-- Value of a hexadecimal character; injective on `hexDigits`. -/
def hexVal (c : Char) : Fin 16 :=
  match c with
  | '0' => 0
  | '1' => 1
  | '2' => 2
  | '3' => 3
  | '4' => 4
  | '5' => 5
  | '6' => 6
  | '7' => 7
  | '8' => 8
  | '9' => 9
  | 'a' => 10
  | 'b' => 11
  | 'c' => 12
  | 'd' => 13
  | 'e' => 14
  | 'f' => 15
  | _ => 0

theorem hexVal_inj : ∀ c ∈ hexDigits, ∀ d ∈ hexDigits, hexVal c = hexVal d → c = d := by
  decide

/-- Finite fingerprint of a digest output. -/
def hexEncode (s : String) (i : Fin 64) : Fin 16 := hexVal (s.data.getD i.val '0')

theorem hexEncode_inj (s t : String)
    (hs : s.length = 64) (ht : t.length = 64)
    (hsh : ∀ c ∈ s.data, c ∈ hexDigits) (hth : ∀ c ∈ t.data, c ∈ hexDigits)
    (h : ∀ i : Fin 64, hexEncode s i = hexEncode t i) : s = t := by
  have hsl : s.data.length = 64 := hs
  have htl : t.data.length = 64 := ht
  have hdata : s.data = t.data := by
    apply List.ext_getElem (by omega)
    intro i hi1 hi2
    have hi : i < 64 := by omega
    have := h ⟨i, hi⟩
    unfold hexEncode at this
    rw [List.getD_eq_getElem s.data '0' (by omega),
        List.getD_eq_getElem t.data '0' (by omega)] at this
    exact hexVal_inj _ (hsh _ (List.getElem_mem _)) _ (hth _ (List.getElem_mem _)) this
  cases s; cases t
  exact congrArg String.mk hdata

/-- The probe strings used for the pigeonhole argument: `n + 1` copies of
the letter `a`; their normalized forms are themselves and pairwise distinct. -/
def probeString (n : Nat) : String := String.mk (List.replicate (n + 1) 'a')

theorem normalizeQuestion_probeString (n : Nat) :
    normalizeQuestion (probeString n) = probeString n := by
  unfold normalizeQuestion probeString jsToLower jsTrim
  simp only [String.data]
  rw [List.map_replicate]
  have htl : Char.toLower 'a' = 'a' := by decide
  rw [htl]
  have hdw : List.dropWhile Char.isWhitespace (List.replicate (n + 1) 'a') =
      List.replicate (n + 1) 'a' := by
    rw [List.replicate_succ, List.dropWhile_cons]
    simp
  rw [hdw, List.reverse_replicate, hdw, List.reverse_replicate]

theorem probeString_injective : Function.Injective probeString := by
  intro m n h
  unfold probeString at h
  have : List.replicate (m + 1) 'a' = List.replicate (n + 1) 'a' := congrArg String.data h
  have hlen := congrArg List.length this
  simpa using hlen

/-- Pigeonhole: any function with the 64-hex-character output format of
`digest('hex')`, SHA-256 included, collides on two questions whose
normalized forms are distinct. -/
theorem digest_has_collision (df : DigestFunction) :
    ∃ q1 q2 : String, normalizeQuestion q1 ≠ normalizeQuestion q2 ∧
      questionHash df q1 = questionHash df q2 := by
  obtain ⟨m, n, hne, heq⟩ :=
    Finite.exists_ne_map_eq_of_infinite (fun n : ℕ => hexEncode (df.f (probeString n)))
  refine ⟨probeString m, probeString n, ?_, ?_⟩
  · rw [normalizeQuestion_probeString, normalizeQuestion_probeString]
    exact fun h => hne (probeString_injective h)
  · unfold questionHash
    rw [normalizeQuestion_probeString, normalizeQuestion_probeString]
    exact hexEncode_inj _ _ (df.len64 _) (df.len64 _) (df.hexOut _) (df.hexOut _)
      (fun i => congrFun heq i)

/-- A digest function that is constantly 64 zeros. -/
def constDigest : DigestFunction where
  f := fun _ => String.mk (List.replicate 64 '0')
  len64 := fun _ => rfl
  hexOut := fun _ => by
    show ∀ c ∈ (String.mk (List.replicate 64 '0')).data, c ∈ hexDigits
    decide

/-- C2 counterexample: it is not true that any two questions with distinct
normalized forms receive distinct hashes — every digest with the sha256
output format (64 hex characters) necessarily collides somewhere
(`digest_has_collision`). -/
theorem C2_counterexample :
    ¬ ∀ (df : DigestFunction) (q1 q2 : String),
        normalizeQuestion q1 ≠ normalizeQuestion q2 →
          questionHash df q1 ≠ questionHash df q2 := by
  intro h
  obtain ⟨q1, q2, hne, heq⟩ := digest_has_collision constDigest
  exact h constDigest q1 q2 hne heq

/-- C2 (amended): the hash computed by the GET and POST handlers is a
function of the lowercased, trimmed question, so equal normalized forms
always receive identical hashes; and provided the digest does not collide
on the two normalized forms in question (overwhelmingly likely for
SHA-256, though no fixed-width digest is literally injective), distinct
normalized forms receive distinct hashes. -/
theorem C2_hash_spec (df : DigestFunction) (q1 q2 : String)
    (hnc : df.f (normalizeQuestion q1) = df.f (normalizeQuestion q2) →
      normalizeQuestion q1 = normalizeQuestion q2) :
    questionHash df q1 = questionHash df q2 ↔ normalizeQuestion q1 = normalizeQuestion q2 := by
  constructor
  · exact hnc
  · intro h
    unfold questionHash
    rw [h]

/-- A digest function taking two distinct values, used to witness
`C2_hash_spec` on a pair without a collision. -/
def twoValDigest : DigestFunction where
  f := fun s => if s = "a" then String.mk ('1' :: List.replicate 63 '0')
                else String.mk (List.replicate 64 '0')
  len64 := fun s => by
    by_cases h : s = "a" <;> simp [h] <;> rfl
  hexOut := fun s => by
    by_cases h : s = "a" <;> simp only [h, if_pos, if_neg, reduceIte] <;> decide

/-- Witness for `C2_hash_spec` at `df = twoValDigest`, `q1 = "A "`,
`q2 = "b"`: the hashes differ and the normalized forms differ. -/
theorem C2_hash_spec_witness :
    questionHash twoValDigest "A " = questionHash twoValDigest "b" ↔
      normalizeQuestion "A " = normalizeQuestion "b" :=
  C2_hash_spec twoValDigest "A " "b" (by decide)

/-! ## The AI orchestration client
(src/src/lib/openai.ts and src/unnamed/part_003) -/

/-- Duck-typed error object inspected by `handleApiError`:
`error?.status`, `error?.code`, `error?.message`. -/
structure ApiError where
  status : Option Nat
  code : Option String
  message : Option String
deriving DecidableEq

/-- Embeds `handleApiError` (identical in both service variants): classifies
the caught error and yields the message of the `Error` the method throws. -/
def handleApiError (e : ApiError) (operation : String) : String :=
  if e.status = some 401 then
    "Invalid API key. Please check your OpenAI API key in settings."
  else if e.status = some 429 then
    "API rate limit exceeded. Please try again in a few moments."
  else if e.status = some 403 then
    "API access forbidden. Please check your API key permissions."
  else if e.code = some "insufficient_quota" then
    "Insufficient API quota. Please check your OpenAI account billing."
  else if jsIncludes (e.message.getD "") "network" then
    "Network error. Please check your internet connection."
  else
    "Failed to " ++ operation ++ ". Please try again."

/-- Outcome of one `client.chat.completions.create` call: either the promise
rejects with an error object, or it resolves and
`response.choices[0]?.message?.content` is the given optional string. -/
inductive ProviderResult where
  | failure (e : ApiError)
  | success (content : Option String)
deriving DecidableEq

/-- Shape of an evaluation result. -/
structure Evaluation where
  score : ℚ
  feedback : String
  suggestions : List String
deriving DecidableEq

/-- Embeds `getFallbackEvaluation` (identical in both service variants). -/
def getFallbackEvaluation : Evaluation where
  score := 6
  feedback := "Your response shows good effort. Focus on expanding your ideas with more details and examples."
  suggestions :=
    ["Try to speak for longer periods",
     "Use more varied vocabulary",
     "Practice connecting your ideas smoothly"]

/-- Embeds `evaluateResponse` (openai.ts lines 101–150; the cached variant in
part_003 behaves identically after a cache miss).  `parseJson` stands for the
external `JSON.parse` plus the trusted cast to the expected shape (`none`
models a parse exception).  The empty-content check reflects JavaScript
truthiness: an empty string is falsy.  The second component counts provider
invocations; the method has a single call site and no retry. -/
def evaluateResponse (parseJson : String → Option Evaluation) (provider : ProviderResult) :
    Except String Evaluation × Nat :=
  (match provider with
   | .failure e => .error (handleApiError e "evaluate response")
   | .success none => .ok getFallbackEvaluation
   | .success (some content) =>
       if content = "" then .ok getFallbackEvaluation
       else
         match parseJson content with
         | some ev => .ok ev
         | none => .ok getFallbackEvaluation,
   1)

/-- C5 counterexample: when the provider call fails (here with HTTP 401),
`evaluateResponse` does not return the fallback evaluation — it surfaces the
thrown, classified error instead. -/
theorem C5_counterexample :
    (evaluateResponse (fun _ => none) (.failure ⟨some 401, none, none⟩)).1 =
      .error "Invalid API key. Please check your OpenAI API key in settings." ∧
    (evaluateResponse (fun _ => none) (.failure ⟨some 401, none, none⟩)).1 ≠
      .ok getFallbackEvaluation := by
  constructor
  · rfl
  · intro h
    exact Except.noConfusion h

/-- C5 (amended): `evaluateResponse` returns the fixed fallback evaluation
(score 6.0, the generic feedback string, exactly three generic suggestions)
whenever the provider resolves with missing or empty content or with content
that is not parseable as JSON; when the provider call itself fails, the error
is instead converted by `handleApiError` into a thrown classified message (no
fallback); the provider is invoked exactly once per call (no retry). -/
theorem C5_evaluate_fallback (parseJson : String → Option Evaluation)
    (pr : ProviderResult) :
    (∀ e, pr = .failure e →
      (evaluateResponse parseJson pr).1 = .error (handleApiError e "evaluate response")) ∧
    (pr = .success none →
      (evaluateResponse parseJson pr).1 = .ok getFallbackEvaluation) ∧
    (∀ c, pr = .success (some c) → (c = "" ∨ parseJson c = none) →
      (evaluateResponse parseJson pr).1 = .ok getFallbackEvaluation) ∧
    (∀ c ev, pr = .success (some c) → c ≠ "" → parseJson c = some ev →
      (evaluateResponse parseJson pr).1 = .ok ev) ∧
    getFallbackEvaluation.score = 6 ∧ getFallbackEvaluation.suggestions.length = 3 ∧
    (evaluateResponse parseJson pr).2 = 1 := by
  refine ⟨?_, ?_, ?_, ?_, rfl, rfl, rfl⟩
  · rintro e rfl
    rfl
  · rintro rfl
    rfl
  · rintro c rfl hc
    rcases hc with rfl | hp
    · rfl
    · unfold evaluateResponse
      simp only
      rw [hp]
      by_cases hce : c = "" <;> simp [hce]
  · rintro c ev rfl hc hp
    unfold evaluateResponse
    simp only
    rw [if_neg hc, hp]

/-- Witness for `C5_evaluate_fallback`: a provider success with no content
yields the fallback evaluation. -/
theorem C5_evaluate_fallback_witness :
    (evaluateResponse (fun _ => none) (.success none)).1 = .ok getFallbackEvaluation :=
  (C5_evaluate_fallback (fun _ => none) (.success none)).2.1 rfl

/-! ## Question generation fallback
(`OptimizedOpenAIService.generateQuestion` and `getFallbackQuestion`,
src/unnamed/part_003 lines 105–145 and 372–395) -/

/-- Embeds the `fallbacks` object of `getFallbackQuestion`: the fixed
fallback lists for parts 1, 2 and 3. -/
def fallbackQuestions (part : Nat) : List String :=
  match part with
  | 1 =>
    ["Tell me about your hometown.",
     "What do you do for work or study?",
     "Do you have any hobbies?",
     "What kind of music do you like?",
     "How do you usually spend your weekends?"]
  | 2 =>
    ["Describe a place you like to visit. You should say: where it is, how often you go there, what you do there, and explain why you like this place.",
     "Describe a person who has influenced you. You should say: who this person is, how you know them, what they are like, and explain how they have influenced you.",
     "Describe a skill you would like to learn. You should say: what the skill is, why you want to learn it, how you would learn it, and explain how this skill would help you."]
  | 3 =>
    ["How do you think education will change in the future?",
     "What are the advantages and disadvantages of modern technology?",
     "How important is it to preserve traditional culture?"]
  | _ => []

/-- Embeds `getFallbackQuestion`: `questions[questionNumber % questions.length]`.
`none` models the `undefined` lookup that JavaScript would produce for a part
outside 1–3. -/
def getFallbackQuestion (part questionNumber : Nat) : Option String :=
  (fallbackQuestions part)[questionNumber % (fallbackQuestions part).length]?

/-- JavaScript `a || b` for an optional string: `undefined` and `""` are falsy. -/
def jsOrString (a b : Option String) : Option String :=
  match a with
  | some s => if s = "" then b else some s
  | none => b

/-- Embeds `OptimizedOpenAIService.generateQuestion`: cache key
`question_${part}_${contextKey.slice(0,50)}` (the braces describe the source
template literal); a cached truthy string is returned as-is (an empty cached
string is falsy and ignored — values stored by this method are never empty);
otherwise the provider is called once: a rejection is converted by
`handleApiError` into a thrown message, while resolved content is substituted
by `content || getFallbackQuestion(part, questionNumber)` and cached for 30
minutes.  An `undefined` fallback (part outside 1–3) is returned uncached. -/
def generateQuestion (c : APICache String) (now : Int) (part questionNumber : Nat)
    (contextKey : String) (provider : ProviderResult) :
    Except String (Option String) × APICache String :=
  let cacheKey := "question_" ++ toString part ++ "_" ++ contextKey.take 50
  let proceed : APICache String → Except String (Option String) × APICache String :=
    fun c1 =>
      match provider with
      | .failure e => (.error (handleApiError e "generate question"), c1)
      | .success content =>
          match jsOrString content (getFallbackQuestion part questionNumber) with
          | some q => (.ok (some q), c1.set cacheKey q now (30 * 60 * 1000))
          | none => (.ok none, c1)
  match APICache.get c cacheKey now with
  | (some cached, c1) => if cached = "" then proceed c1 else (.ok (some cached), c1)
  | (none, c1) => proceed c1

/-- C6 counterexample: when the provider call fails (here with HTTP 429),
`generateQuestion` does not select any fallback question — it surfaces the
thrown, classified error, so in particular it does not return the fallback
selected by `0 % 5` for part 1. -/
theorem C6_counterexample :
    (generateQuestion APICache.clear 0 1 0 "" (.failure ⟨some 429, none, none⟩)).1 =
      .error "API rate limit exceeded. Please try again in a few moments." ∧
    (generateQuestion APICache.clear 0 1 0 "" (.failure ⟨some 429, none, none⟩)).1 ≠
      .ok (getFallbackQuestion 1 0) := by
  constructor
  · rfl
  · intro h
    exact Except.noConfusion h

/-- C6 (amended): when the provider call succeeds but yields no (or empty)
content and the cache holds no entry for the key,
`OptimizedOpenAIService.generateQuestion` selects its fallback question
deterministically as `list[i % list.length]`; hence for every part in
{1,2,3} and every index `i`, the calls at indices `i` and
`i + fallbackListLength` select the same (defined) fallback text.  A failing
provider call instead surfaces a thrown error. -/
theorem C6_fallback_periodic (c : APICache String) (now : Int) (part i : Nat)
    (contextKey : String)
    (hpart : part = 1 ∨ part = 2 ∨ part = 3)
    (hmiss : (APICache.get c ("question_" ++ toString part ++ "_" ++ contextKey.take 50)
        now).1 = none) :
    (generateQuestion c now part i contextKey (.success none)).1 =
        .ok (getFallbackQuestion part i) ∧
    getFallbackQuestion part i = getFallbackQuestion part (i + (fallbackQuestions part).length) ∧
    (getFallbackQuestion part i).isSome = true := by
  have hlen : 0 < (fallbackQuestions part).length := by
    rcases hpart with rfl | rfl | rfl <;> decide
  have hper : getFallbackQuestion part i =
      getFallbackQuestion part (i + (fallbackQuestions part).length) := by
    unfold getFallbackQuestion
    rw [Nat.add_mod_right]
  have hsome : (getFallbackQuestion part i).isSome = true := by
    unfold getFallbackQuestion
    rw [List.getElem?_eq_getElem (Nat.mod_lt _ hlen)]
    rfl
  obtain ⟨q, hq⟩ := Option.isSome_iff_exists.mp hsome
  refine ⟨?_, hper, hsome⟩
  unfold generateQuestion
  simp only
  rcases hget : APICache.get c ("question_" ++ toString part ++ "_" ++ contextKey.take 50)
      now with ⟨r, c1⟩
  rw [hget] at hmiss
  simp only at hmiss
  subst hmiss
  simp only
  show (match jsOrString none (getFallbackQuestion part i) with
    | some q => ((Except.ok (some q) : Except String (Option String)),
        c1.set ("question_" ++ toString part ++ "_" ++ contextKey.take 50) q now (30 * 60 * 1000))
    | none => (.ok none, c1)).1 = .ok (getFallbackQuestion part i)
  rw [show jsOrString none (getFallbackQuestion part i) = getFallbackQuestion part i from rfl,
    hq]

/-- Witness for `C6_fallback_periodic` at the empty cache, part 1, index 0:
the provider yields no content and the first part-1 fallback is selected,
with period 5. -/
theorem C6_fallback_periodic_witness :
    (generateQuestion APICache.clear 0 1 0 "" (.success none)).1 =
        .ok (getFallbackQuestion 1 0) ∧
    getFallbackQuestion 1 0 = getFallbackQuestion 1 (0 + (fallbackQuestions 1).length) ∧
    (getFallbackQuestion 1 0).isSome = true :=
  C6_fallback_periodic APICache.clear 0 1 0 "" (Or.inl rfl) rfl

/-! ## Persisted data model
(ModelAnswer and UserHistory schemas; the handlers in
src/src/app/api/model-answers/route.ts and src/unnamed/part_004) -/

/-- The four per-criterion band scores. -/
structure Criteria where
  fluencyCoherence : ℚ
  lexicalResource : ℚ
  grammaticalRange : ℚ
  pronunciation : ℚ
deriving DecidableEq

/-- A persisted ModelAnswer document, with the fields the route handlers
read or write (`createdAt`/`updatedAt` are managed by the database layer and
never read by any handler). -/
structure ModelAnswerRecord where
  id : Nat
  questionHash : String
  question : String
  part : Int
  topic : Option String
  modelAnswer : String
  bandScore : ℚ
  criteria : Criteria
  usageCount : Nat
deriving DecidableEq

/-- The JSON view of a ModelAnswer both handlers return (explicit field
list; the `questionHash` is never exposed). -/
structure ModelAnswerView where
  id : Nat
  question : String
  part : Int
  topic : Option String
  modelAnswer : String
  bandScore : ℚ
  criteria : Criteria
  usageCount : Nat
deriving DecidableEq

def modelAnswerView (r : ModelAnswerRecord) : ModelAnswerView :=
  ⟨r.id, r.question, r.part, r.topic, r.modelAnswer, r.bandScore, r.criteria, r.usageCount⟩

/-- The NextAuth session as the handlers see it: `userId = session.user?.id`. -/
structure Session where
  userId : Option String
deriving DecidableEq

/-- Structurally valid payload of POST /api/model-answers. -/
structure ModelAnswerBody where
  question : String
  part : Int
  topic : Option String
  modelAnswer : String
  bandScore : ℚ
  criteria : Criteria
deriving DecidableEq

/-- The zod refinements of `modelAnswerSchema`: nonempty question and
answer, integral part in [1,3] (integrality is structural in `Int`),
band score and each criterion in [1,9]. -/
def modelAnswerSchemaOk (b : ModelAnswerBody) : Bool :=
  decide (1 ≤ b.question.length) && decide (1 ≤ b.part) && decide (b.part ≤ 3) &&
  decide (1 ≤ b.modelAnswer.length) &&
  decide (1 ≤ b.bandScore) && decide (b.bandScore ≤ 9) &&
  decide (1 ≤ b.criteria.fluencyCoherence) && decide (b.criteria.fluencyCoherence ≤ 9) &&
  decide (1 ≤ b.criteria.lexicalResource) && decide (b.criteria.lexicalResource ≤ 9) &&
  decide (1 ≤ b.criteria.grammaticalRange) && decide (b.criteria.grammaticalRange ≤ 9) &&
  decide (1 ≤ b.criteria.pronunciation) && decide (b.criteria.pronunciation ≤ 9)

/-- Embeds the `new RegExp(topic, 'i')` filter for metacharacter-free
patterns: case-insensitive substring match against the stored topic; a
document without a topic field never matches. -/
def topicMatches (pat : String) (topic : Option String) : Bool :=
  match topic with
  | none => false
  | some t => jsIncludes (jsToLower t) (jsToLower pat)

/-- The similar-answer `searchQuery`: exact part match and topic regex, each
applied only when the parameter was supplied. -/
def similarQuery (part : Option Int) (topic : Option String) (r : ModelAnswerRecord) : Bool :=
  (match part with
   | none => true
   | some p => r.part == p) &&
  (match topic with
   | none => true
   | some t => topicMatches t r.topic)

/-- The `.sort({ usageCount: -1, bandScore: -1 })` order: usage count
descending, ties broken by band score descending. -/
def answerOrder (a b : ModelAnswerRecord) : Prop :=
  b.usageCount < a.usageCount ∨ (a.usageCount = b.usageCount ∧ b.bandScore ≤ a.bandScore)

instance : DecidableRel answerOrder := fun a b => by
  unfold answerOrder; infer_instance

instance : IsTotal ModelAnswerRecord answerOrder where
  total a b := by
    unfold answerOrder
    rcases Nat.lt_trichotomy a.usageCount b.usageCount with h | h | h
    · rcases le_total b.bandScore a.bandScore with hb | hb
      · exact Or.inr (Or.inl h)
      · exact Or.inr (Or.inl h)
    · rcases le_total b.bandScore a.bandScore with hb | hb
      · exact Or.inl (Or.inr ⟨h, hb⟩)
      · exact Or.inr (Or.inr ⟨h.symm, hb⟩)
    · exact Or.inl (Or.inl h)

instance : IsTrans ModelAnswerRecord answerOrder where
  trans a b c hab hbc := by
    unfold answerOrder at *
    rcases hab with h1 | ⟨h1, h1b⟩ <;> rcases hbc with h2 | ⟨h2, h2b⟩
    · exact Or.inl (h2.trans h1)
    · exact Or.inl (by omega)
    · exact Or.inl (by omega)
    · exact Or.inr ⟨h1.trans h2, h2b.trans h1b⟩

/-- Response of GET /api/model-answers.  `missingQuestion` is the 400
response, `found` the exact-hash hit, `similar` the `found:false` miss
payload. -/
inductive ModelAnswersGetResponse where
  | unauthorized
  | missingQuestion
  | found (v : ModelAnswerView)
  | similar (vs : List ModelAnswerView)
deriving DecidableEq

/-- Embeds GET /api/model-answers (route.ts lines 30–102).  Output: the
response, the collection after the handler, and whether the handler reached
`connectToDatabase()`.  `question`, `part`, `topic` are the query parameters
(`part` already through `parseInt`, absent or empty modelled as `none`). -/
def modelAnswersGET (df : DigestFunction) (session : Option Session)
    (question : Option String) (part : Option Int) (topic : Option String)
    (db : List ModelAnswerRecord) :
    ModelAnswersGetResponse × List ModelAnswerRecord × Bool :=
  match session with
  | none => (.unauthorized, db, false)
  | some _ =>
    match question with
    | none => (.missingQuestion, db, false)
    | some q =>
      if q = "" then (.missingQuestion, db, false)
      else
        let h := questionHash df q
        match db.find? (fun r => r.questionHash == h) with
        | some m =>
            (.found { modelAnswerView m with usageCount := m.usageCount + 1 },
             db.map (fun r => if r.id == m.id then { r with usageCount := r.usageCount + 1 }
                              else r),
             true)
        | none =>
            (.similar (((List.insertionSort answerOrder
                (db.filter (similarQuery part topic))).take 5).map modelAnswerView),
             db, true)

/-- Response of POST /api/model-answers.  `alreadyExists` is the 200
"Model answer already exists" response; `created` carries status 201. -/
inductive ModelAnswersPostResponse where
  | unauthorized
  | validationFailed
  | alreadyExists (v : ModelAnswerView)
  | created (v : ModelAnswerView)
deriving DecidableEq

/-- Embeds POST /api/model-answers (route.ts lines 105–175).  `newId` models
the fresh `_id` the driver assigns.  Output as in `modelAnswersGET`. -/
def modelAnswersPOST (df : DigestFunction) (session : Option Session)
    (body : ModelAnswerBody) (db : List ModelAnswerRecord) (newId : Nat) :
    ModelAnswersPostResponse × List ModelAnswerRecord × Bool :=
  match session with
  | none => (.unauthorized, db, false)
  | some _ =>
    if modelAnswerSchemaOk body = false then (.validationFailed, db, false)
    else
      let h := questionHash df body.question
      match db.find? (fun r => r.questionHash == h) with
      | some existing => (.alreadyExists (modelAnswerView existing), db, true)
      | none =>
          let r : ModelAnswerRecord :=
            { id := newId, questionHash := h, question := body.question, part := body.part,
              topic := body.topic, modelAnswer := body.modelAnswer,
              bandScore := body.bandScore, criteria := body.criteria, usageCount := 1 }
          (.created (modelAnswerView r), db ++ [r], true)

/-! ## User history (src/unnamed/part_004) -/

/-- An evaluation attached to a practice question. -/
structure EvaluationRecord where
  bandScore : ℚ
  criteria : Criteria
  feedback : String
  strengths : List String
  improvements : List String
deriving DecidableEq

/-- One per-question entry of a history body; the `timestamp` is the optional
ISO datetime, modelled as the parsed time value. -/
structure BodyQuestion where
  question : String
  userAnswer : Option String
  modelAnswer : Option String
  evaluation : Option EvaluationRecord
  timestamp : Option Int
deriving DecidableEq

/-- The overall session score. -/
structure OverallScore where
  bandScore : ℚ
  criteria : Criteria
deriving DecidableEq

/-- Structurally valid payload of POST /api/user-history
(`createHistorySchema`). -/
structure HistoryBody where
  sessionId : String
  part : Int
  topic : Option String
  questions : List BodyQuestion
  overallScore : Option OverallScore
  duration : ℚ
  completedAt : Option Int
deriving DecidableEq

/-- A request body as received over the wire: the fields the schema knows
about, plus any extra keys the client sent — zod strips unknown keys on
`parse`, so only `parsed` survives validation.  The extra key relevant to
ownership is a client-supplied `userId`. -/
structure RawHistoryBody where
  parsed : HistoryBody
  extraUserId : Option String
deriving DecidableEq

def evaluationOk (e : EvaluationRecord) : Bool :=
  decide (1 ≤ e.bandScore) && decide (e.bandScore ≤ 9) &&
  decide (1 ≤ e.criteria.fluencyCoherence) && decide (e.criteria.fluencyCoherence ≤ 9) &&
  decide (1 ≤ e.criteria.lexicalResource) && decide (e.criteria.lexicalResource ≤ 9) &&
  decide (1 ≤ e.criteria.grammaticalRange) && decide (e.criteria.grammaticalRange ≤ 9) &&
  decide (1 ≤ e.criteria.pronunciation) && decide (e.criteria.pronunciation ≤ 9)

def bodyQuestionOk (q : BodyQuestion) : Bool :=
  decide (1 ≤ q.question.length) &&
  (match q.evaluation with
   | none => true
   | some e => evaluationOk e)

def overallScoreOk (s : OverallScore) : Bool :=
  decide (1 ≤ s.bandScore) && decide (s.bandScore ≤ 9) &&
  decide (1 ≤ s.criteria.fluencyCoherence) && decide (s.criteria.fluencyCoherence ≤ 9) &&
  decide (1 ≤ s.criteria.lexicalResource) && decide (s.criteria.lexicalResource ≤ 9) &&
  decide (1 ≤ s.criteria.grammaticalRange) && decide (s.criteria.grammaticalRange ≤ 9) &&
  decide (1 ≤ s.criteria.pronunciation) && decide (s.criteria.pronunciation ≤ 9)

/-- The zod refinements of `createHistorySchema`: nonempty session id and
question texts, integral part in [1,3], scores in [1,9], nonnegative
duration. -/
def createHistorySchemaOk (b : HistoryBody) : Bool :=
  decide (1 ≤ b.sessionId.length) && decide (1 ≤ b.part) && decide (b.part ≤ 3) &&
  b.questions.all bodyQuestionOk &&
  (match b.overallScore with
   | none => true
   | some s => overallScoreOk s) &&
  decide (0 ≤ b.duration)

/-- One per-question entry of a persisted UserHistory document (the
timestamp is always present after insertion). -/
structure QuestionRecord where
  question : String
  userAnswer : Option String
  modelAnswer : Option String
  evaluation : Option EvaluationRecord
  timestamp : Int
deriving DecidableEq

/-- A persisted UserHistory document (fields the route reads or writes;
`createdAt` is read by the sort and the response). -/
structure HistoryRecord where
  id : Nat
  userId : String
  sessionId : String
  part : Int
  topic : Option String
  questions : List QuestionRecord
  overallScore : Option OverallScore
  duration : ℚ
  completedAt : Option Int
  createdAt : Int
deriving DecidableEq

/-- The JSON view of a history record (explicit field list;
`select('-userId')` — the owner id is never exposed). -/
structure HistoryView where
  id : Nat
  sessionId : String
  part : Int
  topic : Option String
  questions : List QuestionRecord
  overallScore : Option OverallScore
  duration : ℚ
  completedAt : Option Int
  createdAt : Int
deriving DecidableEq

def historyView (r : HistoryRecord) : HistoryView :=
  ⟨r.id, r.sessionId, r.part, r.topic, r.questions, r.overallScore, r.duration,
   r.completedAt, r.createdAt⟩

/-- The pagination metadata of the GET response. -/
structure Pagination where
  page : Int
  limit : Int
  total : Nat
  pages : Int
deriving DecidableEq

/-- `Math.ceil(total / limit)` over exact arithmetic. -/
def jsMathCeilDiv (total : Nat) (limit : Int) : Int := ⌈(total : ℚ) / (limit : ℚ)⌉

/-- The mongoose `query` of GET /api/user-history: owner scoping plus the
optional exact part match and case-insensitive topic substring. -/
def historyQuery (uid : String) (part : Option Int) (topic : Option String)
    (r : HistoryRecord) : Bool :=
  (r.userId == uid) &&
  (match part with
   | none => true
   | some p => r.part == p) &&
  (match topic with
   | none => true
   | some t => topicMatches t r.topic)

/-- The `.sort({ createdAt: -1 })` order: newest first. -/
def newestFirst (a b : HistoryRecord) : Prop := b.createdAt ≤ a.createdAt

instance : DecidableRel newestFirst := fun a b => by
  unfold newestFirst; infer_instance

instance : IsTotal HistoryRecord newestFirst :=
  ⟨fun a b => le_total b.createdAt a.createdAt⟩

instance : IsTrans HistoryRecord newestFirst :=
  ⟨fun _ _ _ hab hbc => le_trans hbc hab⟩

/-- Response of GET /api/user-history. -/
inductive UserHistoryGetResponse where
  | unauthorized
  | ok (histories : List HistoryView) (pagination : Pagination)
deriving DecidableEq

/-- Embeds GET /api/user-history (part_004 lines 44–98): owner-scoped and
filtered query, count, sort by `createdAt` descending,
`skip((page-1)*limit)`, `limit(limit)`, and `pages = Math.ceil(total/limit)`.
The Boolean records whether the handler reached `connectToDatabase()`. -/
def userHistoryGET (session : Option Session) (page limit : Int) (part : Option Int)
    (topic : Option String) (db : List HistoryRecord) :
    UserHistoryGetResponse × Bool :=
  match session with
  | none => (.unauthorized, false)
  | some s =>
    match s.userId with
    | none => (.unauthorized, false)
    | some uid =>
      let matching := db.filter (historyQuery uid part topic)
      let total := matching.length
      let pageList := ((List.insertionSort newestFirst matching).drop
        ((page - 1) * limit).toNat).take limit.toNat
      (.ok (pageList.map historyView) ⟨page, limit, total, jsMathCeilDiv total limit⟩, true)

/-- Response of POST /api/user-history. -/
inductive UserHistoryPostResponse where
  | unauthorized
  | validationFailed
  | created (v : HistoryView)
deriving DecidableEq

/-- Embeds POST /api/user-history (part_004 lines 101–153): after the session
and validation checks the record is built by spreading the parsed payload and
then stamping `userId` from the session — the raw body's extra keys were
stripped by `parse` and cannot reach the record.  `now` models the `new
Date()` default timestamp, `newId` the fresh `_id`. -/
def userHistoryPOST (session : Option Session) (raw : RawHistoryBody)
    (db : List HistoryRecord) (newId : Nat) (now : Int) :
    UserHistoryPostResponse × List HistoryRecord × Bool :=
  match session with
  | none => (.unauthorized, db, false)
  | some s =>
    match s.userId with
    | none => (.unauthorized, db, false)
    | some uid =>
      let b := raw.parsed
      if createHistorySchemaOk b = false then (.validationFailed, db, false)
      else
        let r : HistoryRecord :=
          { id := newId, userId := uid, sessionId := b.sessionId, part := b.part,
            topic := b.topic,
            questions := b.questions.map (fun q =>
              { question := q.question, userAnswer := q.userAnswer,
                modelAnswer := q.modelAnswer, evaluation := q.evaluation,
                timestamp := q.timestamp.getD now }),
            overallScore := b.overallScore, duration := b.duration,
            completedAt := b.completedAt, createdAt := now }
        (.created (historyView r), db ++ [r], true)

/-! ## The auth gate (middleware, src/unnamed/part_000 lines 4–29) -/

/-- Embeds the `authorized` callback of `withAuth`: the three protected path
prefixes demand a truthy session token (`!!token`); every other path passes. -/
def authorizedCallback (token : Option String) (pathname : String) : Bool :=
  if jsStartsWith pathname "/api/model-answers" then token.isSome
  else if jsStartsWith pathname "/api/user-history" then token.isSome
  else if jsStartsWith pathname "/dashboard" then token.isSome
  else true

/-! ## Claims C3 and C4: the model-answer route -/

/-- C3: POST /api/model-answers is idempotent on question identity.  With a
valid session and a payload passing validation: if a record with the question
hash already exists, the handler responds "already exists" with exactly that
record's fields and leaves the collection untouched (no duplicate, no
modification); otherwise it appends one new record carrying `usageCount = 1`
and the hash and payload fields, and returns it with status 201. -/
theorem C3_post_idempotent (df : DigestFunction) (s : Session) (body : ModelAnswerBody)
    (db : List ModelAnswerRecord) (newId : Nat)
    (hval : modelAnswerSchemaOk body = true) :
    (∀ r, db.find? (fun x => x.questionHash == questionHash df body.question) = some r →
      modelAnswersPOST df (some s) body db newId =
        (.alreadyExists (modelAnswerView r), db, true)) ∧
    (db.find? (fun x => x.questionHash == questionHash df body.question) = none →
      ∃ r : ModelAnswerRecord,
        modelAnswersPOST df (some s) body db newId = (.created (modelAnswerView r), db ++ [r], true) ∧
        r.usageCount = 1 ∧ r.questionHash = questionHash df body.question ∧
        r.question = body.question ∧ r.part = body.part ∧ r.topic = body.topic ∧
        r.modelAnswer = body.modelAnswer ∧ r.bandScore = body.bandScore ∧
        r.criteria = body.criteria) := by
  constructor
  · intro r hfind
    unfold modelAnswersPOST
    simp only [hval, Bool.true_eq_false, if_false, hfind]
  · intro hfind
    refine ⟨⟨newId, questionHash df body.question, body.question, body.part, body.topic,
      body.modelAnswer, body.bandScore, body.criteria, 1⟩,
      ?_, rfl, rfl, rfl, rfl, rfl, rfl, rfl, rfl⟩
    unfold modelAnswersPOST
    simp only [hval, Bool.true_eq_false, if_false, hfind]

/-- A concrete valid POST payload used by the witnesses. -/
def sampleBody : ModelAnswerBody where
  question := "Tell me about your hometown."
  part := 1
  topic := some "hometown"
  modelAnswer := "Well, my hometown is a medium-sized city."
  bandScore := 7
  criteria := ⟨7, 7, 7, 7⟩

/-- Witness for `C3_post_idempotent`: posting `sampleBody` to an empty
collection inserts one record with `usageCount = 1`. -/
theorem C3_post_idempotent_witness :
    ∃ r : Ielts.ModelAnswerRecord,
      modelAnswersPOST constDigest (some ⟨some "u"⟩) sampleBody [] 0 =
        (.created (modelAnswerView r), [] ++ [r], true) ∧
      r.usageCount = 1 ∧ r.questionHash = questionHash constDigest sampleBody.question ∧
      r.question = sampleBody.question ∧ r.part = sampleBody.part ∧
      r.topic = sampleBody.topic ∧ r.modelAnswer = sampleBody.modelAnswer ∧
      r.bandScore = sampleBody.bandScore ∧ r.criteria = sampleBody.criteria :=
  (C3_post_idempotent constDigest ⟨some "u"⟩ sampleBody [] 0 (by decide)).2 rfl

/-- C4: a GET /api/model-answers lookup whose hash matches a stored record
(ids being unique) responds `found` with exactly that record's fields and the
usage count incremented by one, and rewrites the collection so that the
matched record's `usageCount` grows by exactly 1 while every record keeps its
other fields and every other record is untouched. -/
theorem C4_get_increments (df : DigestFunction) (s : Session) (q : String)
    (part : Option Int) (topic : Option String) (db : List ModelAnswerRecord)
    (m : ModelAnswerRecord)
    (hq : q ≠ "")
    (hfind : db.find? (fun r => r.questionHash == questionHash df q) = some m)
    (hids : (db.map (fun r => r.id)).Nodup) :
    modelAnswersGET df (some s) (some q) part topic db =
      (.found { modelAnswerView m with usageCount := m.usageCount + 1 },
       db.map (fun r => if r.id = m.id then { m with usageCount := m.usageCount + 1 } else r),
       true) := by
  have hm : m ∈ db := List.mem_of_find?_eq_some hfind
  have hinj := List.inj_on_of_nodup_map hids
  unfold modelAnswersGET
  simp only [if_neg hq, hfind]
  refine congrArg (fun l => (_, l, true)) (List.map_congr_left ?_)
  intro r hr
  by_cases hid : r.id = m.id
  · have : r = m := hinj hr hm hid
    subst this
    simp
  · simp [hid]

/-- A stored record whose hash is the constant digest output, for the C4
witness. -/
def storedAnswer : ModelAnswerRecord where
  id := 5
  questionHash := String.mk (List.replicate 64 '0')
  question := "Tell me about your hometown."
  part := 1
  topic := some "hometown"
  modelAnswer := "Well, my hometown is a medium-sized city."
  bandScore := 7
  criteria := ⟨7, 7, 7, 7⟩
  usageCount := 0

/-- Witness for `C4_get_increments` on a one-record collection: the lookup
returns the record with `usageCount` 1 and stores `usageCount` 1 where 0 was
stored. -/
theorem C4_get_increments_witness :
    modelAnswersGET constDigest (some ⟨some "u"⟩) (some "Anything") none none [storedAnswer] =
      (.found { modelAnswerView storedAnswer with usageCount := storedAnswer.usageCount + 1 },
       [storedAnswer].map (fun r => if r.id = storedAnswer.id then
          { storedAnswer with usageCount := storedAnswer.usageCount + 1 } else r),
       true) :=
  C4_get_increments constDigest ⟨some "u"⟩ "Anything" none none [storedAnswer] storedAnswer
    (by decide) (by decide) (by decide)

/-! ## Claim C7: user-history pagination -/

theorem ceil_div_eq_of_bounds (total l q : Nat) (hl : 1 ≤ l)
    (h1 : total ≤ l * q) (h2 : l * q < total + l) :
    ⌈(total : ℚ) / (l : ℚ)⌉ = (q : Int) := by
  have hl0 : (0 : ℚ) < (l : ℚ) := by exact_mod_cast hl
  have h1q : (total : ℚ) ≤ (l : ℚ) * (q : ℚ) := by exact_mod_cast h1
  have h2q : (l : ℚ) * (q : ℚ) < (total : ℚ) + (l : ℚ) := by exact_mod_cast h2
  rw [Int.ceil_eq_iff]
  constructor
  · rw [lt_div_iff₀ hl0]
    push_cast
    nlinarith
  · rw [div_le_iff₀ hl0]
    push_cast
    nlinarith

theorem jsMathCeilDiv_eq (total l : Nat) (hl : 1 ≤ l) :
    jsMathCeilDiv total (l : Int) = ((total + l - 1) / l : Nat) := by
  unfold jsMathCeilDiv
  have hc : (((l : Int) : ℚ)) = (l : ℚ) := by push_cast; ring
  rw [hc]
  have hmod := Nat.div_add_mod (total + l - 1) l
  have hrlt : (total + l - 1) % l < l := Nat.mod_lt _ (by omega)
  exact ceil_div_eq_of_bounds total l _ hl (by omega) (by omega)

theorem historyQuery_spec (uid : String) (part : Option Int) (topic : Option String)
    (r : HistoryRecord) (h : historyQuery uid part topic r = true) :
    r.userId = uid ∧ (∀ p, part = some p → r.part = p) ∧
      (∀ t, topic = some t → topicMatches t r.topic = true) := by
  unfold historyQuery at h
  rw [Bool.and_eq_true, Bool.and_eq_true] at h
  obtain ⟨⟨h1, h2⟩, h3⟩ := h
  refine ⟨by simpa using h1, ?_, ?_⟩
  · rintro p rfl
    simpa using h2
  · rintro t rfl
    exact h3

/-- C7: GET /api/user-history with a valid session returns records scoped
strictly to the caller (each returned view comes from a stored record owned
by the caller and passing the exact part match and case-insensitive topic
substring filter), skipping `(page-1)*limit` records of the filtered total
and returning at most `limit` of them (`min limit (total - skip)`), with
`pages = ceil(total/limit)`. -/
theorem C7_history_pagination (uid : String) (page limit : Int) (part : Option Int)
    (topic : Option String) (db : List HistoryRecord)
    (hlimit : 1 ≤ limit) :
    ∃ hs pg, userHistoryGET (some ⟨some uid⟩) page limit part topic db = (.ok hs pg, true) ∧
      (∀ v ∈ hs, ∃ r ∈ db, r.userId = uid ∧
        (∀ p, part = some p → r.part = p) ∧
        (∀ t, topic = some t → topicMatches t r.topic = true) ∧
        v = historyView r) ∧
      pg.total = (db.filter (historyQuery uid part topic)).length ∧
      hs.length = min limit.toNat (pg.total - ((page - 1) * limit).toNat) ∧
      pg.page = page ∧ pg.limit = limit ∧
      pg.pages = ((pg.total + limit.toNat - 1) / limit.toNat : Nat) := by
  refine ⟨_, _, rfl, ?_, rfl, ?_, rfl, rfl, ?_⟩
  · intro v hv
    obtain ⟨r, hr, rfl⟩ := List.mem_map.mp hv
    have hr1 : r ∈ (List.insertionSort newestFirst
        (db.filter (historyQuery uid part topic))) :=
      List.mem_of_mem_drop (List.mem_of_mem_take hr)
    have hr2 : r ∈ db.filter (historyQuery uid part topic) :=
      (List.perm_insertionSort newestFirst _).mem_iff.mp hr1
    obtain ⟨hmem, hq⟩ := List.mem_filter.mp hr2
    obtain ⟨hu, hp, ht⟩ := historyQuery_spec uid part topic r hq
    exact ⟨r, hmem, hu, hp, ht, rfl⟩
  · rw [List.length_map, List.length_take, List.length_drop,
      (List.perm_insertionSort newestFirst _).length_eq]
  · have hlim : limit = ((limit.toNat : ℕ) : Int) := (Int.toNat_of_nonneg (by omega)).symm
    rw [hlim]
    exact jsMathCeilDiv_eq _ _ (by omega)

/-- A caller-owned collection of 23 records, for the C7 witness. -/
def histDb23 : List HistoryRecord :=
  (List.range 23).map (fun i =>
    { id := i, userId := "u", sessionId := "s1", part := 2, topic := none, questions := [],
      overallScore := none, duration := 180, completedAt := none, createdAt := (i : Int) })

/-- Witness for `C7_history_pagination` at `total = 23`, `limit = 10`,
`page = 3`. -/
theorem C7_history_pagination_witness :
    ∃ hs pg, userHistoryGET (some ⟨some "u"⟩) 3 10 none none histDb23 = (.ok hs pg, true) ∧
      (∀ v ∈ hs, ∃ r ∈ histDb23, r.userId = "u" ∧
        (∀ p, (none : Option Int) = some p → r.part = p) ∧
        (∀ t, (none : Option String) = some t → topicMatches t r.topic = true) ∧
        v = historyView r) ∧
      pg.total = (histDb23.filter (historyQuery "u" none none)).length ∧
      hs.length = min (10 : Int).toNat (pg.total - (((3 : Int) - 1) * 10).toNat) ∧
      pg.page = 3 ∧ pg.limit = 10 ∧
      pg.pages = ((pg.total + (10 : Int).toNat - 1) / (10 : Int).toNat : Nat) :=
  C7_history_pagination "u" 3 10 none none histDb23 (by decide)

/-- Accessor used to spell out the concrete pagination instance. -/
def okLength : UserHistoryGetResponse → Nat
  | .unauthorized => 0
  | .ok hs _ => hs.length

/-- Accessor used to spell out the concrete pagination instance. -/
def okPages : UserHistoryGetResponse → Int
  | .unauthorized => 0
  | .ok _ pg => pg.pages

/-- The concrete instance named by the specification: with 23 matching
records and `limit = 10`, page 3 returns 3 records and `pages = 3`. -/
theorem histDb23_page3_instance :
    okLength (userHistoryGET (some ⟨some "u"⟩) 3 10 none none histDb23).1 = 3 ∧
    okPages (userHistoryGET (some ⟨some "u"⟩) 3 10 none none histDb23).1 = 3 := by
  constructor
  · decide
  · have h : okPages (userHistoryGET (some ⟨some "u"⟩) 3 10 none none histDb23).1 =
        jsMathCeilDiv 23 10 := rfl
    rw [h, show (10 : Int) = ((10 : ℕ) : Int) from rfl, jsMathCeilDiv_eq 23 10 (by omega)]
    rfl

/-! ## Claim C8: the auth gate -/

/-- C8: a request without a session token to a path prefixed by one of the
three protected prefixes fails the middleware `authorized` callback, while
every other path passes it unconditionally; and each protected handler,
called without a valid session, returns 401 having performed no database
access (third component `false`) and no state change. -/
theorem C8_auth_gate (pathname : String) (token : Option String) (df : DigestFunction)
    (q : Option String) (p : Option Int) (t : Option String)
    (adb : List ModelAnswerRecord) (body : ModelAnswerBody) (newId : Nat)
    (page limit : Int) (hdb : List HistoryRecord) (raw : RawHistoryBody) (now : Int) :
    ((jsStartsWith pathname "/api/model-answers" = true ∨
      jsStartsWith pathname "/api/user-history" = true ∨
      jsStartsWith pathname "/dashboard" = true) → token = none →
        authorizedCallback token pathname = false) ∧
    ((jsStartsWith pathname "/api/model-answers" = false ∧
      jsStartsWith pathname "/api/user-history" = false ∧
      jsStartsWith pathname "/dashboard" = false) →
        authorizedCallback token pathname = true) ∧
    userHistoryGET none page limit p t hdb = (.unauthorized, false) ∧
    userHistoryGET (some ⟨none⟩) page limit p t hdb = (.unauthorized, false) ∧
    userHistoryPOST none raw hdb newId now = (.unauthorized, hdb, false) ∧
    modelAnswersGET df none q p t adb = (.unauthorized, adb, false) ∧
    modelAnswersPOST df none body adb newId = (.unauthorized, adb, false) := by
  refine ⟨?_, ?_, rfl, rfl, rfl, rfl, rfl⟩
  · rintro h rfl
    unfold authorizedCallback
    rcases h with h | h | h <;> simp [h]
  · rintro ⟨h1, h2, h3⟩
    unfold authorizedCallback
    simp [h1, h2, h3]

/-- A raw POST body for the witnesses: a client-supplied `userId` key rides
along outside the schema. -/
def sampleRawBody : RawHistoryBody where
  parsed :=
    { sessionId := "s1", part := 2, topic := some "travel",
      questions := [⟨"Describe a trip", some "I went to the mountains", none, none, none⟩],
      overallScore := none, duration := 180, completedAt := none }
  extraUserId := some "someone-else"

/-- Witness for `C8_auth_gate` at the user-history path with no token. -/
theorem C8_auth_gate_witness :
    authorizedCallback none "/api/user-history" = false ∧
    userHistoryGET none 1 10 none none [] = (.unauthorized, false) :=
  ⟨(C8_auth_gate "/api/user-history" none constDigest none none none [] sampleBody 0
      1 10 [] sampleRawBody 0).1 (Or.inr (Or.inl (by decide))) rfl,
   (C8_auth_gate "/api/user-history" none constDigest none none none [] sampleBody 0
      1 10 [] sampleRawBody 0).2.2.1⟩

/-! ## Claim C9: the similar-answers miss path -/

theorem similarQuery_spec (part : Option Int) (topic : Option String)
    (r : ModelAnswerRecord) (h : similarQuery part topic r = true) :
    (∀ p, part = some p → r.part = p) ∧
      (∀ t, topic = some t → topicMatches t r.topic = true) := by
  unfold similarQuery at h
  rw [Bool.and_eq_true] at h
  obtain ⟨h1, h2⟩ := h
  refine ⟨?_, ?_⟩
  · rintro p rfl
    simpa using h1
  · rintro t rfl
    exact h2

/-- C9: when GET /api/model-answers finds no record with the queried hash, it
responds `found:false` with at most 5 suggestions, every one the view of a
stored record passing the supplied part (exact) and topic (case-insensitive
substring) filters, listed in usage-count-descending order with ties in
band-score-descending order; the collection is not modified. -/
theorem C9_similar_answers (df : DigestFunction) (s : Session) (q : String)
    (part : Option Int) (topic : Option String) (db : List ModelAnswerRecord)
    (hq : q ≠ "")
    (hmiss : db.find? (fun r => r.questionHash == questionHash df q) = none) :
    ∃ vs, modelAnswersGET df (some s) (some q) part topic db = (.similar vs, db, true) ∧
      vs.length ≤ 5 ∧
      (∀ v ∈ vs, ∃ r ∈ db, similarQuery part topic r = true ∧
        (∀ p, part = some p → r.part = p) ∧
        (∀ t, topic = some t → topicMatches t r.topic = true) ∧
        v = modelAnswerView r) ∧
      vs.Pairwise (fun a b => b.usageCount < a.usageCount ∨
        (a.usageCount = b.usageCount ∧ b.bandScore ≤ a.bandScore)) := by
  refine ⟨((List.insertionSort answerOrder
      (db.filter (similarQuery part topic))).take 5).map modelAnswerView, ?_, ?_, ?_, ?_⟩
  · simp only [modelAnswersGET, if_neg hq, hmiss]
  · rw [List.length_map]
    exact List.length_take_le _ _
  · intro v hv
    obtain ⟨r, hr, rfl⟩ := List.mem_map.mp hv
    have hr1 : r ∈ List.insertionSort answerOrder (db.filter (similarQuery part topic)) :=
      List.mem_of_mem_take hr
    have hr2 : r ∈ db.filter (similarQuery part topic) :=
      (List.perm_insertionSort answerOrder _).mem_iff.mp hr1
    obtain ⟨hmem, hqy⟩ := List.mem_filter.mp hr2
    obtain ⟨hp, ht⟩ := similarQuery_spec part topic r hqy
    exact ⟨r, hmem, hqy, hp, ht, rfl⟩
  · rw [List.pairwise_map]
    have hsorted : (List.insertionSort answerOrder
        (db.filter (similarQuery part topic))).Pairwise answerOrder :=
      List.sorted_insertionSort answerOrder _
    exact (hsorted.sublist (List.take_sublist _ _)).imp (fun h => h)

/-- Two stored answers with hashes distinct from the constant digest output,
for the C9 witness. -/
def otherAnswer1 : ModelAnswerRecord where
  id := 1
  questionHash := "h1"
  question := "Do you have any hobbies?"
  part := 1
  topic := some "hobbies"
  modelAnswer := "Well, I really enjoy hiking."
  bandScore := 7
  criteria := ⟨7, 7, 7, 7⟩
  usageCount := 4

/-- Second stored answer for the C9 witness. -/
def otherAnswer2 : ModelAnswerRecord where
  id := 2
  questionHash := "h2"
  question := "What kind of music do you like?"
  part := 1
  topic := some "music"
  modelAnswer := "I mostly listen to jazz."
  bandScore := 8
  criteria := ⟨8, 8, 8, 8⟩
  usageCount := 9

/-- Witness for `C9_similar_answers` on a two-record collection with no
matching hash. -/
theorem C9_similar_answers_witness :
    ∃ vs, modelAnswersGET constDigest (some ⟨some "u"⟩) (some "Unseen question") none none
        [otherAnswer1, otherAnswer2] = (.similar vs, [otherAnswer1, otherAnswer2], true) ∧
      vs.length ≤ 5 ∧
      (∀ v ∈ vs, ∃ r ∈ [otherAnswer1, otherAnswer2], similarQuery none none r = true ∧
        (∀ p, (none : Option Int) = some p → r.part = p) ∧
        (∀ t, (none : Option String) = some t → topicMatches t r.topic = true) ∧
        v = modelAnswerView r) ∧
      vs.Pairwise (fun a b => b.usageCount < a.usageCount ∨
        (a.usageCount = b.usageCount ∧ b.bandScore ≤ a.bandScore)) :=
  C9_similar_answers constDigest ⟨some "u"⟩ "Unseen question" none none
    [otherAnswer1, otherAnswer2] (by decide) (by decide)

/-! ## Claim C10: history ownership is session-derived -/

/-- C10: for an authenticated POST /api/user-history with a body passing
validation, the persisted record's `userId` is the session user id; and the
whole outcome depends only on the schema-validated part of the body, so two
raw bodies differing only outside the schema (for example in a supplied
`userId` key) produce identical stored records and responses — the body
cannot influence ownership. -/
theorem C10_ownership (uid : String) (raw1 raw2 : RawHistoryBody)
    (db : List HistoryRecord) (newId : Nat) (now : Int)
    (hsame : raw1.parsed = raw2.parsed)
    (hval : createHistorySchemaOk raw1.parsed = true) :
    (∃ r : HistoryRecord,
      userHistoryPOST (some ⟨some uid⟩) raw1 db newId now =
        (.created (historyView r), db ++ [r], true) ∧
      r.userId = uid) ∧
    userHistoryPOST (some ⟨some uid⟩) raw1 db newId now =
      userHistoryPOST (some ⟨some uid⟩) raw2 db newId now := by
  constructor
  · unfold userHistoryPOST
    simp only [hval, Bool.true_eq_false, if_false]
    exact ⟨_, rfl, rfl⟩
  · unfold userHistoryPOST
    rw [hsame]

/-- Second raw body for the C10 witness: same schema fields as
`sampleRawBody`, no extra `userId` key. -/
def sampleRawBodyClean : RawHistoryBody where
  parsed := sampleRawBody.parsed
  extraUserId := none

/-- Witness for `C10_ownership`: the two raw bodies differ only in the
client-supplied `userId` key and produce identical outcomes owned by the
session user. -/
theorem C10_ownership_witness :
    (∃ r : HistoryRecord,
      userHistoryPOST (some ⟨some "alice"⟩) sampleRawBody [] 0 1000 =
        (.created (historyView r), [] ++ [r], true) ∧
      r.userId = "alice") ∧
    userHistoryPOST (some ⟨some "alice"⟩) sampleRawBody [] 0 1000 =
      userHistoryPOST (some ⟨some "alice"⟩) sampleRawBodyClean [] 0 1000 :=
  C10_ownership "alice" sampleRawBody sampleRawBodyClean [] 0 1000 rfl (by decide)

end Ielts
